import Mathlib

/-!
# Verification of the nbp iSCSI client and service-broker controller

A shallow embedding of `client/iscsi/helper.go` and
`service-broker/controller/controller.go` into Lean 4, together with
theorems settling the specification's claims against it.

Modelling conventions:

* External effects (running `iscsiadm`, `blkid`, `mkfs`, `mkdir`, `mount`,
  `os.Stat`, `filepath.Glob`, the storage-control client) are parameters:
  an environment record supplies the result each invocation would produce.
* A Go function's outcome is an `Outcome α`: a normal return value, a
  returned non-nil `error` (carrying its message), a run-time panic
  (e.g. assignment into a nil map, failed type assertion), or a process
  termination caused by `log.Fatalf` / `log.Fatalln` (which in Go prints
  and then calls `os.Exit(1)`, so the `return err` statements that follow
  such calls in this code base are unreachable).
* Functions record the external commands they run as a `List Event`, so
  that claims about which calls are (not) performed can be stated.
* Go maps used by the controller are modelled as association lists whose
  lookup returns the most recent insertion, matching Go map lookup.
-/

/-- Outcome of a Go function call: normal return, returned error,
run-time panic, or process exit via `log.Fatal*`. -/
inductive Outcome (α : Type) where
  | ok (a : α)
  | err (e : String)
  | panics
  | exitFatal
  deriving Repr, DecidableEq

/-- `true` exactly on the `Outcome.err` constructor. -/
def Outcome.isErr {α : Type} : Outcome α → Bool
  | .err _ => true
  | _ => false

/-- External command invocations observable in a trace. -/
inductive Event where
  | discoveryCall
  | setUserCall
  | setPassCall
  | loginCall
  | logoutCall
  | deleteCall
  | blkidCall
  | mkfsCall (fstype device : String)
  | mkdirCall (mountpoint : String)
  | mountCall (device mountpoint : String)
  deriving Repr, DecidableEq

/-! ## Session Manager: the device-path polling loop (helper.go 47-86) -/

/-- Result of one `os.Stat` probe, classified the way the Go code
classifies it: `err == nil`, `os.IsNotExist(err)`, or any other error. -/
inductive StatRes where
  | ok
  | errNotExist
  | errOther
  deriving Repr, DecidableEq

/-- The file-system world the polling loop observes.  The probe functions
are indexed by the attempt number so that a device node appearing over
time can be expressed.  `glob` returning `[]` models `filepath.Glob`
returning a nil slice (no match). -/
structure PollWorld where
  stat : Nat → String → StatRes
  glob : Nat → String → List String

/-- `ISCSITranslateTCP` constant (helper.go 38). -/
def ISCSITranslateTCP : String := "tcp"

/-- Result of `waitForPathToExistInternal`: the boolean the Go function
returns, the final value of the `*devicePath` out-parameter, and the
counts of `time.Sleep` calls and of probes performed. -/
structure WaitRes where
  found : Bool
  path : Option String
  sleeps : Nat
  attempts : Nat
  deriving Repr, DecidableEq

/-- The body of the `for i := 0; i < maxRetries; i++` loop of
`waitForPathToExistInternal` (helper.go 59-84).  `fuel` is the number of
loop iterations still allowed by the `i < maxRetries` guard; the Go
`break` on `i == maxRetries-1` is kept verbatim.  Returns
(result, final path, sleep count, attempt count). -/
def waitLoopAux (w : PollWorld) (deviceTransport : String) (maxRetries : Int)
    (i : Nat) (fuel : Nat) (path : String) (sleeps attempts : Nat) :
    Bool × String × Nat × Nat :=
  match fuel with
  | 0 => (false, path, sleeps, attempts)
  | fuel' + 1 =>
    let pr : StatRes × String :=
      if deviceTransport = ISCSITranslateTCP then
        (w.stat i path, path)
      else
        match w.glob i path with
        | [] => (.errNotExist, path)
        | p :: _ => (.ok, p)
    match pr.1 with
    | .ok => (true, pr.2, sleeps, attempts + 1)
    | .errOther => (false, pr.2, sleeps, attempts + 1)
    | .errNotExist =>
      if (i : Int) = maxRetries - 1 then
        (false, pr.2, sleeps, attempts + 1)
      else
        waitLoopAux w deviceTransport maxRetries (i + 1) fuel' pr.2
          (sleeps + 1) (attempts + 1)

/-- `waitForPathToExistInternal` (helper.go 54-86): nil path fails at
once; otherwise run the retry loop. -/
def waitForPathToExistInternal (w : PollWorld) (devicePath : Option String)
    (maxRetries : Int) (deviceTransport : String) : WaitRes :=
  match devicePath with
  | none => ⟨false, none, 0, 0⟩
  | some p =>
    let r := waitLoopAux w deviceTransport maxRetries 0 maxRetries.toNat p 0 0
    ⟨r.1, some r.2.1, r.2.2.1, r.2.2.2⟩

/-- `waitForPathToExist` (helper.go 48-51): same procedure with the real
`os.Stat` / `filepath.Glob` supplied, here the ambient world. -/
def waitForPathToExist (w : PollWorld) (devicePath : Option String)
    (maxRetries : Int) (deviceTransport : String) : WaitRes :=
  waitForPathToExistInternal w devicePath maxRetries deviceTransport

/-! ## Session Manager: Connect and its sub-commands (helper.go 116-223) -/

/-- A value in a Go `map[string]interface{}` parameter bag. -/
inductive PVal where
  | pstr (s : String)
  | pint (n : Int)
  | pbool (b : Bool)
  deriving Repr, DecidableEq

/-- A Go `map[string]interface{}` used as a parameter bag. -/
abbrev Params := List (String × PVal)

/-- `IscsiConnectorInfo` (helper.go 18-29). -/
structure IscsiConnectorInfo where
  accessMode : String
  authUser : String
  authPass : String
  authMethod : String
  tgtDisco : Bool
  tgtIQN : String
  tgtPortal : String
  volumeID : String
  tgtLun : Int
  encrypted : Bool
  deriving Repr, DecidableEq

/-- `mapstructure` decoding of one string field: absent (or non-string)
keys leave the zero value `""`. -/
def decStr (m : Params) (k : String) : String :=
  match m.lookup k with
  | some (.pstr s) => s
  | _ => ""

/-- `mapstructure` decoding of one int field: zero value `0` if absent. -/
def decInt (m : Params) (k : String) : Int :=
  match m.lookup k with
  | some (.pint n) => n
  | _ => 0

/-- `mapstructure` decoding of one bool field: zero value `false`. -/
def decBool (m : Params) (k : String) : Bool :=
  match m.lookup k with
  | some (.pbool b) => b
  | _ => false

/-- `ParseIscsiConnectInfo` (helper.go 335-339): decode the untyped
attribute map into the connector struct via the `mapstructure` tags. -/
def ParseIscsiConnectInfo (connectInfo : Params) : IscsiConnectorInfo :=
  { accessMode := decStr connectInfo "accessMode"
    authUser := decStr connectInfo "authUserName"
    authPass := decStr connectInfo "authPassword"
    authMethod := decStr connectInfo "authMethod"
    tgtDisco := decBool connectInfo "targetDiscovered"
    tgtIQN := decStr connectInfo "targetIqn"
    tgtPortal := decStr connectInfo "targetPortal"
    volumeID := decStr connectInfo "volumeId"
    tgtLun := decInt connectInfo "targetLun"
    encrypted := decBool connectInfo "encrypted" }

/-- The results the external `iscsiadm` invocations and the file system
would produce during a session operation.  `world1` is the file system at
the initial probe, `world2` the file system during the post-login poll.
`none` for a command means it exits 0; `some e` that it fails. -/
structure SessionEnv where
  world1 : PollWorld
  world2 : PollWorld
  discoveryErr : Option String
  setUserErr : Option String
  setPassErr : Option String
  loginErr : Option String
  logoutErr : Option String
  nodeDeleteErr : Option String

/-- `Discovery` (helper.go 117-125): run sendtargets discovery; on a
non-zero exit `log.Fatalf` terminates the process (the `return err`
after it is unreachable). -/
def Discovery (env : SessionEnv) (portal : String) : List Event × Outcome Unit :=
  match env.discoveryErr with
  | some _ => ([.discoveryCall], .exitFatal)
  | none => ([.discoveryCall], .ok ())

/-- `SetAuth` (helper.go 128-145): set the session username, then the
session password, via two `iscsiadm --op=update` calls; each failure hits
`log.Fatalf`, terminating the process before anything is returned. -/
def SetAuth (env : SessionEnv) (portal targetiqn name passwd : String) :
    List Event × Outcome Unit :=
  match env.setUserErr with
  | some _ => ([.setUserCall], .exitFatal)
  | none =>
    match env.setPassErr with
    | some _ => ([.setUserCall, .setPassCall], .exitFatal)
    | none => ([.setUserCall, .setPassCall], .ok ())

/-- `Login` (helper.go 148-156): `iscsiadm --login`; failure hits
`log.Fatalln`, terminating the process. -/
def Login (env : SessionEnv) (portal targetiqn : String) :
    List Event × Outcome Unit :=
  match env.loginErr with
  | some _ => ([.loginCall], .exitFatal)
  | none => ([.loginCall], .ok ())

/-- `Logout` (helper.go 159-167). -/
def Logout (env : SessionEnv) (portal targetiqn : String) :
    List Event × Outcome Unit :=
  match env.logoutErr with
  | some _ => ([.logoutCall], .exitFatal)
  | none => ([.logoutCall], .ok ())

/-- `Delete` (helper.go 170-178). -/
def NodeDelete (env : SessionEnv) (targetiqn : String) :
    List Event × Outcome Unit :=
  match env.nodeDeleteErr with
  | some _ => ([.deleteCall], .exitFatal)
  | none => ([.deleteCall], .ok ())

/-- The device path Connect computes from portal, IQN and LUN
(helper.go 190-196). -/
def devicePathOf (conn : IscsiConnectorInfo) : String :=
  String.intercalate "-"
    ["/dev/disk/by-path/ip", conn.tgtPortal, "iscsi", conn.tgtIQN,
      "lun", toString conn.tgtLun]

/-- `Connect` (helper.go 181-223).  Mirrors the source exactly: one
non-retrying probe; if absent, discovery (failure is fatal), then — when
an auth method was supplied — `SetAuth`, whose *returned error the source
discards* (only the process exit inside `SetAuth` can stop the flow),
then login (failure fatal), then a 10-attempt poll; exhaustion yields the
timeout error and the session is left logged in. -/
def Connect (env : SessionEnv) (connMap : Params) : List Event × Outcome String :=
  let conn := ParseIscsiConnectInfo connMap
  let portal := conn.tgtPortal
  let targetiqn := conn.tgtIQN
  let devicePath := devicePathOf conn
  let w1 := waitForPathToExist env.world1 (some devicePath) 1 ISCSITranslateTCP
  if w1.found then
    ([], .ok (w1.path.getD devicePath))
  else
    let d := Discovery env portal
    match d.2 with
    | .ok _ =>
      let sa :=
        if conn.authMethod.length ≠ 0 then
          SetAuth env portal targetiqn conn.authUser conn.authPass
        else ([], .ok ())
      match sa.2 with
      | .exitFatal => (d.1 ++ sa.1, .exitFatal)
      | .panics => (d.1 ++ sa.1, .panics)
      | _ =>
        let lg := Login env portal targetiqn
        match lg.2 with
        | .ok _ =>
          let w2 := waitForPathToExist env.world2 w1.path 10 ISCSITranslateTCP
          if w2.found then
            (d.1 ++ sa.1 ++ lg.1, .ok (w2.path.getD devicePath))
          else
            (d.1 ++ sa.1 ++ lg.1,
              .err "Could not connect volume: Timeout after 10s")
        | .err e => (d.1 ++ sa.1 ++ lg.1, .err e)
        | .panics => (d.1 ++ sa.1 ++ lg.1, .panics)
        | .exitFatal => (d.1 ++ sa.1 ++ lg.1, .exitFatal)
    | .err e => (d.1, .err e)
    | .panics => (d.1, .panics)
    | .exitFatal => (d.1, .exitFatal)

/-- A file system in which no probe ever succeeds. -/
def probeNever : PollWorld := ⟨fun _ _ => .errNotExist, fun _ _ => []⟩

/-- A file system in which every probe succeeds. -/
def probeAlways : PollWorld := ⟨fun _ _ => .ok, fun _ _ => []⟩

/-- A connection map carrying CHAP auth parameters. -/
def demoAuthConnMap : Params :=
  [("targetPortal", .pstr "10.0.0.1:3260"),
    ("targetIqn", .pstr "iqn.2017-01.demo:vol1"),
    ("targetLun", .pint 0),
    ("authMethod", .pstr "CHAP"),
    ("authUserName", .pstr "u"),
    ("authPassword", .pstr "pw")]

/-- A session environment whose set-username call fails and whose device
path never appears. -/
def setUserFailEnv : SessionEnv :=
  ⟨probeNever, probeNever, none, some "exit status 1", none, none, none, none⟩

/-- A session environment whose set-password call fails and whose device
path never appears. -/
def setPassFailEnv : SessionEnv :=
  ⟨probeNever, probeNever, none, none, some "exit status 1", none, none, none⟩

/-- A session environment in which every command succeeds but the device
path never appears. -/
def neverAppearEnv : SessionEnv :=
  ⟨probeNever, probeNever, none, none, none, none, none, none⟩

/-! ## Volume Preparation (helper.go 244-301) -/

/-- Does the first list start with the second? -/
def startsWithL : List Char → List Char → Bool
  | _, [] => true
  | [], _ :: _ => false
  | c :: cs, d :: ds => c = d && startsWithL cs ds

/-- Split a character list around each non-overlapping occurrence of the
non-empty separator `sep`, left to right — the semantics of Go's
`strings.Split`.  `fuel` (any value above the input length) makes the
recursion structural, so concrete calls reduce inside the kernel. -/
def goSplit (sep : List Char) : Nat → List Char → List Char → List (List Char)
  | 0, _, cur => [cur.reverse]
  | _ + 1, [], cur => [cur.reverse]
  | f + 1, c :: cs, cur =>
    if startsWithL (c :: cs) sep then
      cur.reverse :: goSplit sep f (List.drop (sep.length - 1) cs) []
    else
      goSplit sep f cs (c :: cur)

/-- Go's `strings.Split` (for the non-empty separators this code uses). -/
def strSplit (s sep : String) : List String :=
  if sep = "" then [s]
  else (goSplit sep.data (s.data.length + 1) s.data []).map (fun l => ⟨l⟩)

/-- Go's `strings.Contains` for a non-empty substring: the split around
it has more than one part. -/
def strContains (s sub : String) : Bool := (strSplit s sub).length > 1

/-- Go's `strings.Replace(s, old, new, -1)`: replace every occurrence. -/
def strReplaceAll (s old new : String) : String :=
  String.intercalate new (strSplit s old)

/-- Results the external `blkid`/`mkfs`/`mkdir`/`mount` commands would
produce.  `blkid` yields (combined output, error); the others just an
error status. -/
structure FsEnv where
  blkid : String → String × Option String
  mkfsErr : String → String → Option String
  mkdirErr : Option String
  mountErr : Option String

/-- `GetFSType` (helper.go 245-263): run `blkid`; a failing probe is
logged (non-fatally) and reported as `""`; otherwise scan the
space-separated fields for the last one containing `TYPE=`, take what
follows the `=` and strip double quotes. -/
def GetFSType (env : FsEnv) (device : String) : String :=
  let r := env.blkid device
  match r.2 with
  | some _ => ""
  | none =>
    if strContains r.1 "TYPE=" then
      (strSplit r.1 " ").foldl
        (fun fsType v =>
          if strContains v "TYPE=" then
            strReplaceAll ((strSplit v "=").getD 1 "") "\"" ""
          else fsType) ""
    else ""

/-- `Format` (helper.go 266-285): probe the current filesystem signature;
only when it is empty run `mkfs` (defaulting the type to ext4), whose
failure hits `log.Fatalf`; an existing signature means no action. -/
def Format (env : FsEnv) (device fstype : String) : List Event × Outcome Unit :=
  let curFSType := GetFSType env device
  if curFSType = "" then
    let fstype2 := if fstype = "" then "ext4" else fstype
    match env.mkfsErr fstype2 device with
    | some _ => ([.blkidCall, .mkfsCall fstype2 device], .exitFatal)
    | none => ([.blkidCall, .mkfsCall fstype2 device], .ok ())
  else
    ([.blkidCall], .ok ())

/-- `Mount` (helper.go 288-301): `mkdir -p` the mount point, then `mount`.
In the source a failing `mkdir` hits `log.Fatalf`, which terminates the
process, so the subsequent mount is never reached; a failing `mount`
likewise hits `log.Fatalf`. -/
def Mount (env : FsEnv) (device mountpoint : String) : List Event × Outcome Unit :=
  match env.mkdirErr with
  | some _ => ([.mkdirCall mountpoint], .exitFatal)
  | none =>
    match env.mountErr with
    | some _ => ([.mkdirCall mountpoint, .mountCall device mountpoint], .exitFatal)
    | none => ([.mkdirCall mountpoint, .mountCall device mountpoint], .ok ())

/-- An environment whose `mkdir -p` fails while everything else would
succeed. -/
def mkdirFailEnv : FsEnv :=
  ⟨fun _ => ("", none), fun _ _ => none, some "mkdir: permission denied", none⟩

/-! ## Instance Registry (controller.go) -/

namespace broker

/-- A value stored in a `brokerapi.Credential`
(`map[string]interface{}`): the strings this controller stores, or the
connection-info map returned by the attachment. -/
inductive CVal where
  | cstr (s : String)
  | cconn (c : List (String × String))
  deriving Repr, DecidableEq

/-- `brokerapi.Credential`, modelled as an association list whose lookup
returns the most recent insertion (Go map lookup). -/
abbrev Credential := List (String × CVal)

/-- `openSDSServiceInstance` (controller.go 27-30). -/
structure openSDSServiceInstance where
  name : String
  credential : Credential
  deriving Repr, DecidableEq

/-- The controller's `instanceMap` (controller.go 36). -/
abbrev InstanceMap := List (String × openSDSServiceInstance)

/-- `model.VolumeSpec`, the fields this controller populates.
`metadata = none` models a Go nil map (the zero value that
`new(model.VolumeSpec)` leaves in the `Metadata` field). -/
structure VolumeSpec where
  name : String
  description : String
  size : Int
  metadata : Option (List (String × String))
  deriving Repr, DecidableEq

/-- The volume the external client returns (fields consumed: id, name). -/
structure Volume where
  id : String
  name : String
  deriving Repr, DecidableEq

/-- `model.HostInfo{}` — constructed empty, no field consumed. -/
structure HostInfo where
  deriving Repr, DecidableEq

/-- `model.VolumeAttachmentSpec`, the fields this controller populates;
`metadata = none` models the nil `Metadata` map of the struct literal in
`Bind` (controller.go 166-170). -/
structure VolumeAttachmentSpec where
  volumeId : String
  hostInfo : HostInfo
  metadata : Option (List (String × String))
  deriving Repr, DecidableEq

/-- The attachment the external client returns (fields consumed: id and
connection info). -/
structure VolumeAttachment where
  id : String
  connectionInfo : List (String × String)
  deriving Repr, DecidableEq

/-- The external storage-control client (`sdsController.GetClient`): each
call either returns a value or an error. -/
structure SdsClient where
  createVolume : VolumeSpec → Except String Volume
  createVolumeAttachment : VolumeAttachmentSpec → Except String VolumeAttachment
  deleteVolumeAttachment : String → Option String

/-- Go `x.(string)` on a parameter-bag value: a non-string panics. -/
def getStrField (params : Params) (k : String) : Outcome (Option String) :=
  match params.lookup k with
  | some (.pstr s) => .ok (some s)
  | some _ => .panics
  | none => .ok none

/-- Go `x.(int64)` on a parameter-bag value: a non-int panics. -/
def getIntField (params : Params) (k : String) : Outcome (Option Int) :=
  match params.lookup k with
  | some (.pint n) => .ok (some n)
  | some _ => .panics
  | none => .ok none

/-- The parameter-decoding prefix of `CreateServiceInstance`
(controller.go 93-105): read name, description and capacity in order
(each a type assertion that panics on a wrong type), then — if `lvPath`
is present — write it into the spec's `Metadata` map.  That map is the
nil map `new(model.VolumeSpec)` produced, so the write panics. -/
def decodeVolumeSpec (params : Params) : Outcome VolumeSpec :=
  match getStrField params "name" with
  | .ok nm =>
    match getStrField params "description" with
    | .ok od =>
      match getIntField params "capacity" with
      | .ok oc =>
        let vin : VolumeSpec := ⟨nm.getD "", od.getD "", oc.getD 0, none⟩
        match params.lookup "lvPath" with
        | some (.pstr s) =>
          match vin.metadata with
          | none => .panics
          | some l => .ok { vin with metadata := some (("lvPath", s) :: l) }
        | some _ => .panics
        | none => .ok vin
      | .err e => .err e
      | .panics => .panics
      | .exitFatal => .exitFatal
    | .err e => .err e
    | .panics => .panics
    | .exitFatal => .exitFatal
  | .err e => .err e
  | .panics => .panics
  | .exitFatal => .exitFatal

/-- `CreateServiceInstance` (controller.go 86-123): decode the
parameters, delegate volume creation, then store a new instance under
`instanceID` whose credential set holds the volume id and the
synthesized image reference; the response returned to the caller is the
empty `brokerapi.CreateServiceInstanceResponse{}`, modelled as `Unit`. -/
def CreateServiceInstance (cl : SdsClient) (st : InstanceMap)
    (instanceID : String) (params : Params) : Outcome (Unit × InstanceMap) :=
  match decodeVolumeSpec params with
  | .ok vin =>
    match cl.createVolume vin with
    | .error e => .err e
    | .ok vol =>
      let inst : openSDSServiceInstance :=
        ⟨instanceID,
          [("volumeId", .cstr vol.id),
            ("image", .cstr ("OPENSDS:" ++ vol.name ++ ":" ++ vol.id))]⟩
      .ok ((), (instanceID, inst) :: st)
  | .err e => .err e
  | .panics => .panics
  | .exitFatal => .exitFatal

/-- `Bind` (controller.go 150-183): look up the instance and its volume
id, build an attachment spec (whose `Metadata` map is nil, so a supplied
`lvPath` parameter makes the write panic), delegate attachment creation,
then add the attachment id and connection info to the instance's
credential set (mutated in place through the shared pointer; modelled by
rebinding the instance) and return the augmented credential set. -/
def Bind (cl : SdsClient) (st : InstanceMap) (instanceID bindingID : String)
    (params : Params) : Outcome (Credential × InstanceMap) :=
  match st.lookup instanceID with
  | none => .err ("No such instance " ++ instanceID ++ " exited!")
  | some inst =>
    match inst.credential.lookup "volumeId" with
    | none => .err "Volume id not provided in credential info!"
    | some (.cconn _) => .panics
    | some (.cstr volId) =>
      let spec : VolumeAttachmentSpec := ⟨volId, ⟨⟩, none⟩
      let specR : Outcome VolumeAttachmentSpec :=
        match params.lookup "lvPath" with
        | some (.pstr s) =>
          match spec.metadata with
          | none => .panics
          | some l => .ok { spec with metadata := some (("lvPath", s) :: l) }
        | some _ => .panics
        | none => .ok spec
      match specR with
      | .ok spec2 =>
        match cl.createVolumeAttachment spec2 with
        | .error e => .err e
        | .ok atc =>
          let cred2 : Credential :=
            ("connectionInfo", .cconn atc.connectionInfo) ::
              ("attachmentId", .cstr atc.id) :: inst.credential
          .ok (cred2, (instanceID, ⟨inst.name, cred2⟩) :: st)
      | .err e => .err e
      | .panics => .panics
      | .exitFatal => .exitFatal

/-- `UnBind` (controller.go 185-207): look up the instance and its
attachment id, delegate attachment deletion, then replace the instance's
credential set with a fresh empty one (`&brokerapi.Credential{}`) — the
instance stays in the map, but every credential key is gone. -/
def UnBind (cl : SdsClient) (st : InstanceMap)
    (instanceID bindingID serviceID planID : String) :
    Outcome (Unit × InstanceMap) :=
  match st.lookup instanceID with
  | none => .err ("No such instance " ++ instanceID ++ " exited!")
  | some inst =>
    match inst.credential.lookup "attachmentId" with
    | none => .err "Volume attachment id not provided in credential info!"
    | some (.cconn _) => .panics
    | some (.cstr atcId) =>
      match cl.deleteVolumeAttachment atcId with
      | some e => .err e
      | none => .ok ((), (instanceID, ⟨inst.name, []⟩) :: st)

/-- The `.ok` response component of a registry call, when any. -/
def respPart {α : Type} (o : Outcome (α × InstanceMap)) : Option α :=
  match o with
  | .ok (a, _) => some a
  | _ => none

end broker

/-- A client for bind/unbind scenarios: attachment creation yields
attachment `a1` with some connection info, attachment deletion succeeds. -/
def bindClient : broker.SdsClient :=
  ⟨fun _ => Except.ok ⟨"v1", "n1"⟩,
    fun _ => Except.ok ⟨"a1", [("targetPortal", "10.0.0.1:3260")]⟩,
    fun _ => none⟩

/-- A provisioned instance's credential set: volume id and image. -/
def c1Cred0 : broker.Credential :=
  [("volumeId", .cstr "v1"), ("image", .cstr "OPENSDS:n1:v1")]

/-- The registry holding that single provisioned instance. -/
def c1St0 : broker.InstanceMap := [("i1", ⟨"i1", c1Cred0⟩)]

/-- The credential set after Bind: attachment-scoped keys on top. -/
def c1CredBound : broker.Credential :=
  ("connectionInfo", .cconn [("targetPortal", "10.0.0.1:3260")]) ::
    ("attachmentId", .cstr "a1") :: c1Cred0

/-- The registry after Bind. -/
def c1St1 : broker.InstanceMap := ("i1", ⟨"i1", c1CredBound⟩) :: c1St0

/-- The registry after UnBind: the instance is rebound to an empty
credential set. -/
def c1St2 : broker.InstanceMap := ("i1", ⟨"i1", []⟩) :: c1St1

/-- A client whose volume creation yields volume `volA` named `nA`. -/
def c3ClientA : broker.SdsClient :=
  ⟨fun _ => Except.ok ⟨"volA", "nA"⟩,
    fun _ => Except.error "unused", fun _ => some "unused"⟩

/-- A client whose volume creation yields volume `volB` named `nB`. -/
def c3ClientB : broker.SdsClient :=
  ⟨fun _ => Except.ok ⟨"volB", "nB"⟩,
    fun _ => Except.error "unused", fun _ => some "unused"⟩

/-- A client none of whose operations are ever consulted successfully. -/
def dummyClient : broker.SdsClient :=
  ⟨fun _ => Except.error "x", fun _ => Except.error "x", fun _ => some "x"⟩

/-! ## Theorems -/
example :
    waitForPathToExistInternal
      ⟨fun i _ => if i = 2 then .ok else .errNotExist, fun _ _ => []⟩
      (some "d") 5 ISCSITranslateTCP = ⟨true, some "d", 2, 3⟩ := by decide

example :
    waitForPathToExistInternal
      ⟨fun _ _ => .errNotExist, fun _ _ => []⟩
      (some "d") 3 ISCSITranslateTCP = ⟨false, some "d", 2, 3⟩ := by decide

example :
    waitForPathToExistInternal
      ⟨fun i _ => if i = 1 then .errOther else .errNotExist, fun _ _ => []⟩
      (some "d") 9 ISCSITranslateTCP = ⟨false, some "d", 1, 2⟩ := by decide

example :
    waitForPathToExistInternal
      ⟨fun _ _ => .errNotExist, fun _ _ => []⟩
      (some "d") 0 ISCSITranslateTCP = ⟨false, some "d", 0, 0⟩ := by decide

/-! ### Lemmas about the polling loop (TCP transport) -/

/-- If attempts `i, …, i+k-1` observe "not exist" and attempt `i+k` (still
within range) observes existence, the loop succeeds there, having slept
exactly `k` times and probed `k+1` times. -/
theorem waitLoopAux_tcp_success (w : PollWorld) (m : Int) (p : String) :
    ∀ k i fuel s a, k + 1 ≤ fuel → ((i + k : Nat) : Int) < m →
    (∀ j, j < k → w.stat (i + j) p = .errNotExist) →
    w.stat (i + k) p = .ok →
    waitLoopAux w ISCSITranslateTCP m i fuel p s a = (true, p, s + k, a + k + 1) := by
  intro k
  induction k with
  | zero =>
    intro i fuel s a hfuel _ _ hk
    obtain ⟨fuel', rfl⟩ : ∃ f, fuel = f + 1 := ⟨fuel - 1, by omega⟩
    simp only [Nat.add_zero] at hk
    simp [waitLoopAux, hk]
  | succ k ih =>
    intro i fuel s a hfuel hrange hb hk
    obtain ⟨fuel', rfl⟩ : ∃ f, fuel = f + 1 := ⟨fuel - 1, by omega⟩
    have h0 : w.stat i p = .errNotExist := by
      have := hb 0 (Nat.succ_pos k)
      simpa using this
    have hbreak : ¬ ((i : Int) = m - 1) := by
      have : ((i + (k + 1) : Nat) : Int) < m := hrange
      push_cast at this ⊢
      omega
    have hrec := ih (i + 1) fuel' (s + 1) (a + 1) (by omega)
      (by push_cast at hrange ⊢; omega)
      (fun j hj => by
        have := hb (j + 1) (Nat.succ_lt_succ hj)
        simpa [Nat.add_comm, Nat.add_assoc, Nat.add_left_comm] using this)
      (by
        have : i + 1 + k = i + (k + 1) := by omega
        rw [this]; exact hk)
    simp only [waitLoopAux, h0, hbreak]
    simp only [if_pos rfl] at hrec ⊢
    simp [h0, hbreak, hrec]
    omega

/-- If attempts `i, …, i+k-1` observe "not exist" and attempt `i+k` (still
within range) observes an error that is not "not exist", the loop fails
there at once: no further probe, no further sleep. -/
theorem waitLoopAux_tcp_other (w : PollWorld) (m : Int) (p : String) :
    ∀ k i fuel s a, k + 1 ≤ fuel → ((i + k : Nat) : Int) < m →
    (∀ j, j < k → w.stat (i + j) p = .errNotExist) →
    w.stat (i + k) p = .errOther →
    waitLoopAux w ISCSITranslateTCP m i fuel p s a = (false, p, s + k, a + k + 1) := by
  intro k
  induction k with
  | zero =>
    intro i fuel s a hfuel _ _ hk
    obtain ⟨fuel', rfl⟩ : ∃ f, fuel = f + 1 := ⟨fuel - 1, by omega⟩
    simp only [Nat.add_zero] at hk
    simp [waitLoopAux, hk]
  | succ k ih =>
    intro i fuel s a hfuel hrange hb hk
    obtain ⟨fuel', rfl⟩ : ∃ f, fuel = f + 1 := ⟨fuel - 1, by omega⟩
    have h0 : w.stat i p = .errNotExist := by
      have := hb 0 (Nat.succ_pos k)
      simpa using this
    have hbreak : ¬ ((i : Int) = m - 1) := by
      have : ((i + (k + 1) : Nat) : Int) < m := hrange
      push_cast at this ⊢
      omega
    have hrec := ih (i + 1) fuel' (s + 1) (a + 1) (by omega)
      (by push_cast at hrange ⊢; omega)
      (fun j hj => by
        have := hb (j + 1) (Nat.succ_lt_succ hj)
        simpa [Nat.add_comm, Nat.add_assoc, Nat.add_left_comm] using this)
      (by
        have : i + 1 + k = i + (k + 1) := by omega
        rw [this]; exact hk)
    simp only [waitLoopAux, h0, hbreak]
    simp only [if_pos rfl] at hrec ⊢
    simp [h0, hbreak, hrec]
    omega

/-- If every attempt in range observes "not exist", the loop exhausts all
its attempts and fails, sleeping between attempts but not after the last
one (the `i == maxRetries-1` break precedes the sleep). -/
theorem waitLoopAux_tcp_exhaust (w : PollWorld) (m : Int) (p : String)
    (hB : ∀ j, j < m.toNat → w.stat j p = .errNotExist) :
    ∀ fuel i s a, fuel + i = m.toNat → 1 ≤ fuel →
    waitLoopAux w ISCSITranslateTCP m i fuel p s a
      = (false, p, s + (fuel - 1), a + fuel) := by
  intro fuel
  induction fuel with
  | zero => intro i s a _ h1; omega
  | succ fuel ih =>
    intro i s a hinv _
    have h0 : w.stat i p = .errNotExist := hB i (by omega)
    by_cases hfz : fuel = 0
    · subst hfz
      have hbreak : (i : Int) = m - 1 := by omega
      simp [waitLoopAux, h0, hbreak]
    · have hbreak : ¬ ((i : Int) = m - 1) := by omega
      have hrec := ih (i + 1) (s + 1) (a + 1) (by omega) (by omega)
      simp only [waitLoopAux, h0, hbreak]
      simp only [if_pos rfl] at hrec ⊢
      simp [h0, hbreak, hrec]
      omega

/-- C4: for every `maxAttempts ≥ 1`, the path-polling procedure returns
success on the first attempt whose probe reports existence (having slept
exactly once between consecutive attempts, so `k` sleeps before the
`k`-th attempt succeeds), and when every attempt reports "not exist" it
performs all `maxAttempts` probes with only `maxAttempts - 1` sleeps:
the fixed 1-second delay is taken only between attempts, never after the
final attempt. -/
theorem waitForPath_first_success_no_sleep_after_final
    (w : PollWorld) (m : Int) (p : String) (k : Nat) (hm : 1 ≤ m) :
    (((k : Int) < m → (∀ j, j < k → w.stat j p = .errNotExist) →
        w.stat k p = .ok →
        waitForPathToExistInternal w (some p) m ISCSITranslateTCP
          = ⟨true, some p, k, k + 1⟩)
      ∧ ((∀ j, j < m.toNat → w.stat j p = .errNotExist) →
        waitForPathToExistInternal w (some p) m ISCSITranslateTCP
          = ⟨false, some p, m.toNat - 1, m.toNat⟩)) := by
  constructor
  · intro hk hb hkok
    have h := waitLoopAux_tcp_success w m p k 0 m.toNat 0 0 (by omega)
      (by simpa using hk) (fun j hj => by simpa using hb j hj)
      (by simpa using hkok)
    simp [waitForPathToExistInternal, h]
  · intro hb
    have h := waitLoopAux_tcp_exhaust w m p hb m.toNat 0 0 0 (by omega) (by omega)
    simp [waitForPathToExistInternal, h]

/-- Witness for C4: with existence first reported on attempt 1 of 3 the
poll succeeds after one sleep and two probes; with no existence at all it
fails after three probes and two sleeps. -/
theorem waitForPath_first_success_no_sleep_after_final_witness :
    waitForPathToExistInternal
        ⟨fun i _ => if i = 1 then .ok else .errNotExist, fun _ _ => []⟩
        (some "/dev/disk/by-path/x") 3 ISCSITranslateTCP
      = ⟨true, some "/dev/disk/by-path/x", 1, 2⟩
    ∧ waitForPathToExistInternal
        ⟨fun _ _ => .errNotExist, fun _ _ => []⟩
        (some "/dev/disk/by-path/x") 3 ISCSITranslateTCP
      = ⟨false, some "/dev/disk/by-path/x", 2, 3⟩ := by
  constructor
  · exact (waitForPath_first_success_no_sleep_after_final
      ⟨fun i _ => if i = 1 then .ok else .errNotExist, fun _ _ => []⟩
      3 "/dev/disk/by-path/x" 1 (by decide)).1 (by decide) (by decide) (by decide)
  · exact (waitForPath_first_success_no_sleep_after_final
      ⟨fun _ _ => .errNotExist, fun _ _ => []⟩
      3 "/dev/disk/by-path/x" 0 (by decide)).2 (by decide)

/-- C5: for every probe error that is not a not-found error, the
path-polling procedure returns failure on that very attempt: `k + 1`
probes were performed (so none of the remaining `maxAttempts - k - 1`
attempts happen) and only the `k` sleeps between the earlier attempts
were taken (no sleep on the aborting attempt). -/
theorem waitForPath_other_error_immediate
    (w : PollWorld) (m : Int) (p : String) (k : Nat)
    (hk : (k : Int) < m)
    (hb : ∀ j, j < k → w.stat j p = .errNotExist)
    (he : w.stat k p = .errOther) :
    waitForPathToExistInternal w (some p) m ISCSITranslateTCP
      = ⟨false, some p, k, k + 1⟩ := by
  have h := waitLoopAux_tcp_other w m p k 0 m.toNat 0 0 (by omega)
    (by simpa using hk) (fun j hj => by simpa using hb j hj) (by simpa using he)
  simp [waitForPathToExistInternal, h]

/-- Witness for C5: a non-not-found stat error on attempt 1 of 9 stops
the poll after two probes and one sleep, leaving seven attempts unused. -/
theorem waitForPath_other_error_immediate_witness :
    waitForPathToExistInternal
        ⟨fun i _ => if i = 1 then .errOther else .errNotExist, fun _ _ => []⟩
        (some "/dev/disk/by-path/x") 9 ISCSITranslateTCP
      = ⟨false, some "/dev/disk/by-path/x", 1, 2⟩ :=
  waitForPath_other_error_immediate
    ⟨fun i _ => if i = 1 then .errOther else .errNotExist, fun _ _ => []⟩
    9 "/dev/disk/by-path/x" 1 (by decide) (by decide) (by decide)

example :
    Connect
      ⟨⟨fun _ _ => .ok, fun _ _ => []⟩, ⟨fun _ _ => .errNotExist, fun _ _ => []⟩,
        none, none, none, none, none, none⟩
      [("targetPortal", .pstr "10.0.0.1:3260"), ("targetIqn", .pstr "iqn.x"),
        ("targetLun", .pint 0)]
      = ([], .ok "/dev/disk/by-path/ip-10.0.0.1:3260-iscsi-iqn.x-lun-0") := by
  decide

/-- C6: when the deterministically computed device path already exists at
the single initial probe, `Connect` performs no external calls at all (in
particular no discovery, auth-update or login) and returns the resolved
path with no error. -/
theorem Connect_idempotent_when_path_exists (env : SessionEnv) (connMap : Params)
    (h : env.world1.stat 0 (devicePathOf (ParseIscsiConnectInfo connMap)) = .ok) :
    Connect env connMap
      = ([], .ok (devicePathOf (ParseIscsiConnectInfo connMap))) := by
  have hw := waitLoopAux_tcp_success env.world1 1
    (devicePathOf (ParseIscsiConnectInfo connMap)) 0 0 1 0 0
    (by omega) (by simp) (fun j hj => absurd hj (by omega)) (by simpa using h)
  simp [Connect, waitForPathToExist, waitForPathToExistInternal, hw]

/-- Witness for C6: a concrete connection map whose computed path is
already present; Connect runs nothing and returns it. -/
theorem Connect_idempotent_when_path_exists_witness :
    Connect
        ⟨⟨fun _ _ => .ok, fun _ _ => []⟩, ⟨fun _ _ => .errNotExist, fun _ _ => []⟩,
          none, none, none, none, none, none⟩
        [("targetPortal", .pstr "10.0.0.1:3260"), ("targetIqn", .pstr "iqn.x"),
          ("targetLun", .pint 0)]
      = ([], .ok "/dev/disk/by-path/ip-10.0.0.1:3260-iscsi-iqn.x-lun-0") := by
  have h := Connect_idempotent_when_path_exists
    ⟨⟨fun _ _ => .ok, fun _ _ => []⟩, ⟨fun _ _ => .errNotExist, fun _ _ => []⟩,
      none, none, none, none, none, none⟩
    [("targetPortal", .pstr "10.0.0.1:3260"), ("targetIqn", .pstr "iqn.x"),
      ("targetLun", .pint 0)]
    (by decide)
  simpa using h

/-- The only `error` value `Connect` can hand back to its caller is the
timeout message: discovery, auth and login failures all terminate the
process inside the respective helper (`log.Fatal*`), so their
tool-invocation errors never surface as a return value. -/
theorem Connect_err_is_timeout (env : SessionEnv) (connMap : Params) (e : String)
    (h : (Connect env connMap).2 = .err e) :
    e = "Could not connect volume: Timeout after 10s" := by
  unfold Connect at h
  by_cases hf : (waitForPathToExist env.world1
      (some (devicePathOf (ParseIscsiConnectInfo connMap))) 1 ISCSITranslateTCP).found
  · simp [hf] at h
  · simp only [hf, if_false, Bool.false_eq_true, if_neg] at h
    cases hdd : env.discoveryErr with
    | some d => simp [Discovery, hdd] at h
    | none =>
      simp only [Discovery, hdd] at h
      by_cases hauth : (ParseIscsiConnectInfo connMap).authMethod.length ≠ 0
      · rw [if_pos hauth] at h
        cases hsu : env.setUserErr with
        | some u => simp [SetAuth, hsu] at h
        | none =>
          cases hsp : env.setPassErr with
          | some s => simp [SetAuth, hsu, hsp] at h
          | none =>
            simp only [SetAuth, hsu, hsp] at h
            cases hl : env.loginErr with
            | some l => simp [Login, hl] at h
            | none =>
              simp only [Login, hl] at h
              by_cases hw2 : (waitForPathToExist env.world2
                  (waitForPathToExist env.world1
                    (some (devicePathOf (ParseIscsiConnectInfo connMap)))
                    1 ISCSITranslateTCP).path 10 ISCSITranslateTCP).found
              · simp [hw2] at h
              · simp [hw2] at h
                exact h.symm
      · rw [if_neg hauth] at h
        cases hl : env.loginErr with
        | some l => simp [Login, hl] at h
        | none =>
          simp only [Login, hl] at h
          by_cases hw2 : (waitForPathToExist env.world2
              (waitForPathToExist env.world1
                (some (devicePathOf (ParseIscsiConnectInfo connMap)))
                1 ISCSITranslateTCP).path 10 ISCSITranslateTCP).found
          · simp [hw2] at h
          · simp [hw2] at h
            exact h.symm

/-- C2, counterexample: with auth supplied, the device path absent and the
set-username `iscsiadm` call failing, `Connect` does not abort with an
error before login: it never returns at all (`log.Fatalf` inside
`SetAuth` terminates the process), so no error reaches the caller. -/
theorem Connect_authUpdate_failure_counterexample :
    (Connect setUserFailEnv demoAuthConnMap).2 = .exitFatal ∧
    ((Connect setUserFailEnv demoAuthConnMap).2).isErr = false ∧
    Event.loginCall ∉ (Connect setUserFailEnv demoAuthConnMap).1 := by
  decide

/-- C2, amended: when the descriptor's auth method is non-empty and either
administrative auth-update sub-step fails, the process is terminated by
the fatal log inside `SetAuth` before login is attempted; no error value
is returned to the caller (Connect itself discards SetAuth's result). -/
theorem Connect_authUpdate_failure_exits_before_login
    (env : SessionEnv) (connMap : Params)
    (h0 : env.world1.stat 0 (devicePathOf (ParseIscsiConnectInfo connMap))
      = .errNotExist)
    (hd : env.discoveryErr = none)
    (ha : (ParseIscsiConnectInfo connMap).authMethod.length ≠ 0)
    (hf : env.setUserErr.isSome ∨ (env.setUserErr = none ∧ env.setPassErr.isSome)) :
    (Connect env connMap).2 = .exitFatal ∧
    ((Connect env connMap).2).isErr = false ∧
    Event.loginCall ∉ (Connect env connMap).1 := by
  have h1 : (1 : Int).toNat = 1 := rfl
  have hw1 := waitLoopAux_tcp_exhaust env.world1 1
    (devicePathOf (ParseIscsiConnectInfo connMap))
    (fun j hj => by
      have : j = 0 := by omega
      subst this; exact h0)
    1 0 0 0 (by omega) (by omega)
  rcases hf with hsu | ⟨hsu, hsp⟩
  · obtain ⟨u, hu⟩ := Option.isSome_iff_exists.mp hsu
    simp [Connect, waitForPathToExist, waitForPathToExistInternal, h1, hw1,
      Discovery, hd, SetAuth, hu, ha, Outcome.isErr]
  · obtain ⟨s, hs⟩ := Option.isSome_iff_exists.mp hsp
    simp [Connect, waitForPathToExist, waitForPathToExistInternal, h1, hw1,
      Discovery, hd, SetAuth, hsu, hs, ha, Outcome.isErr]

/-- Witness for the amended C2, at the set-password failure. -/
theorem Connect_authUpdate_failure_exits_before_login_witness :
    (Connect setPassFailEnv demoAuthConnMap).2 = .exitFatal ∧
    ((Connect setPassFailEnv demoAuthConnMap).2).isErr = false ∧
    Event.loginCall ∉ (Connect setPassFailEnv demoAuthConnMap).1 :=
  Connect_authUpdate_failure_exits_before_login setPassFailEnv demoAuthConnMap
    (by decide) (by decide) (by decide) (Or.inr ⟨by decide, by decide⟩)

/-- C7: when the device path is initially absent, discovery and login
succeed, and the path never appears during the 10-attempt post-login
poll, `Connect` returns the timeout error — which is the only error value
`Connect` can ever return, hence distinct from any tool-invocation error
(those all end the process instead) — and performs no logout: the
logged-in session is left in place. -/
theorem Connect_timeout_no_logout (env : SessionEnv) (connMap : Params)
    (h0 : env.world1.stat 0 (devicePathOf (ParseIscsiConnectInfo connMap))
      = .errNotExist)
    (hd : env.discoveryErr = none)
    (hsu : env.setUserErr = none) (hsp : env.setPassErr = none)
    (hl : env.loginErr = none)
    (h2 : ∀ i, i < 10 →
      env.world2.stat i (devicePathOf (ParseIscsiConnectInfo connMap))
        = .errNotExist) :
    (Connect env connMap).2 = .err "Could not connect volume: Timeout after 10s" ∧
    Event.logoutCall ∉ (Connect env connMap).1 ∧
    Event.deleteCall ∉ (Connect env connMap).1 ∧
    ∀ env2 cm2 e2, (Connect env2 cm2).2 = .err e2 →
      e2 = "Could not connect volume: Timeout after 10s" := by
  have h1 : (1 : Int).toNat = 1 := rfl
  have h10 : (10 : Int).toNat = 10 := rfl
  have hw1 := waitLoopAux_tcp_exhaust env.world1 1
    (devicePathOf (ParseIscsiConnectInfo connMap))
    (fun j hj => by
      have : j = 0 := by
        rw [h1] at hj
        omega
      subst this; exact h0)
    1 0 0 0 (by omega) (by omega)
  have hw2 := waitLoopAux_tcp_exhaust env.world2 10
    (devicePathOf (ParseIscsiConnectInfo connMap))
    (fun j hj => h2 j (by rw [h10] at hj; omega))
    10 0 0 0 (by omega) (by omega)
  refine ⟨?_, ?_, ?_, fun env2 cm2 e2 he => Connect_err_is_timeout env2 cm2 e2 he⟩ <;>
    by_cases hauth : (ParseIscsiConnectInfo connMap).authMethod.length = 0 <;>
    simp [Connect, waitForPathToExist, waitForPathToExistInternal, h1, h10,
      hw1, hw2, Discovery, hd, SetAuth, hsu, hsp, Login, hl, hauth]

/-- Witness for C7: a concrete connect in which discovery and login
succeed but the device node never shows up. -/
theorem Connect_timeout_no_logout_witness :
    (Connect neverAppearEnv demoAuthConnMap).2
        = .err "Could not connect volume: Timeout after 10s" ∧
    Event.logoutCall ∉ (Connect neverAppearEnv demoAuthConnMap).1 := by
  have h := Connect_timeout_no_logout neverAppearEnv demoAuthConnMap
    (by decide) rfl rfl rfl rfl (by decide)
  exact ⟨h.1, h.2.1⟩

example : strSplit "a=b" "=" = ["a", "b"] := by decide

example : strSplit "/dev/sdb: UUID=\"ab\" TYPE=\"ext4\"" " "
    = ["/dev/sdb:", "UUID=\"ab\"", "TYPE=\"ext4\""] := by decide

example : strContains "UUID=\"ab\" TYPE=\"ext4\"" "TYPE=" = true := by decide

example : strReplaceAll "\"ext4\"" "\"" "" = "ext4" := by decide

example :
    GetFSType ⟨fun _ => ("/dev/sdb: UUID=\"ab\" TYPE=\"ext4\"", none),
      fun _ _ => none, none, none⟩ "/dev/sdb" = "ext4" := by decide

example :
    GetFSType ⟨fun _ => ("gibberish", some "blkid: exit status 2"),
      fun _ _ => none, none, none⟩ "/dev/sdb" = "" := by decide

/-- C8: Format is idempotent — whenever the signature probe reports a
non-empty type, Format performs no `mkfs` and returns no error, for any
requested fsType; and a probe failure is treated as "no signature":
Format still proceeds to `mkfs`, using ext4 when the requested type is
empty and the requested type otherwise. -/
theorem Format_idempotent_and_probe_failure_formats
    (envA envB : FsEnv) (device fstype fstypeB e : String)
    (hA : GetFSType envA device ≠ "")
    (hB : (envB.blkid device).2 = some e) :
    Format envA device fstype = ([.blkidCall], .ok ()) ∧
    GetFSType envB device = "" ∧
    (Format envB device "").1 = [.blkidCall, .mkfsCall "ext4" device] ∧
    (Format envB device fstypeB).1
      = [.blkidCall,
          .mkfsCall (if fstypeB = "" then "ext4" else fstypeB) device] := by
  have hgb : GetFSType envB device = "" := by
    simp [GetFSType, hB]
  refine ⟨by simp [Format, hA], hgb, ?_, ?_⟩
  · cases henv : envB.mkfsErr "ext4" device <;> simp [Format, hgb, henv]
  · by_cases hfb : fstypeB = ""
    · subst hfb
      cases henv : envB.mkfsErr "ext4" device <;> simp [Format, hgb, henv]
    · cases henv : envB.mkfsErr fstypeB device <;>
        simp [Format, hgb, henv, hfb]

/-- Witness for C8: a device already carrying ext4 is left alone for any
requested type (here xfs); a device whose probe fails is formatted, with
ext4 when no type is requested and with the requested xfs otherwise. -/
theorem Format_idempotent_and_probe_failure_formats_witness :
    Format ⟨fun _ => ("/dev/sdb: TYPE=\"ext4\"", none), fun _ _ => none,
        none, none⟩ "/dev/sdb" "xfs" = ([.blkidCall], .ok ()) ∧
    GetFSType ⟨fun _ => ("", some "blkid: exit status 2"), fun _ _ => none,
        none, none⟩ "/dev/sdb" = "" ∧
    (Format ⟨fun _ => ("", some "blkid: exit status 2"), fun _ _ => none,
        none, none⟩ "/dev/sdb" "").1
      = [.blkidCall, .mkfsCall "ext4" "/dev/sdb"] ∧
    (Format ⟨fun _ => ("", some "blkid: exit status 2"), fun _ _ => none,
        none, none⟩ "/dev/sdb" "xfs").1
      = [.blkidCall, .mkfsCall (if "xfs" = "" then "ext4" else "xfs") "/dev/sdb"] :=
  Format_idempotent_and_probe_failure_formats
    ⟨fun _ => ("/dev/sdb: TYPE=\"ext4\"", none), fun _ _ => none, none, none⟩
    ⟨fun _ => ("", some "blkid: exit status 2"), fun _ _ => none, none, none⟩
    "/dev/sdb" "xfs" "xfs" "blkid: exit status 2" (by decide) (by decide)

/-- C9: the claim says a directory-creation failure does not abort the
operation and the mount is still attempted.  In the source, however, the
failing `mkdir` hits `log.Fatalf`, which exits the process: evaluated at
a failing mkdir, `Mount` terminates fatally and the `mount` command is
never invoked.  (The dead `return err` statements elsewhere in the file
show log-and-continue was the intent, so this is recorded as a code bug.) -/
theorem Mount_mkdir_failure_is_fatal :
    Mount mkdirFailEnv "/dev/sdb" "/mnt/vol"
      = ([.mkdirCall "/mnt/vol"], .exitFatal) ∧
    Event.mountCall "/dev/sdb" "/mnt/vol"
      ∉ (Mount mkdirFailEnv "/dev/sdb" "/mnt/vol").1 := by
  decide

/-- C1, counterexample: a successful Bind followed by a successful UnBind
on instance `i1` leaves the instance present, but its credential set is
the fresh empty set `&brokerapi.Credential{}` — the volume id is *not*
still present (lookup yields `none`), contrary to the claim. -/
theorem Bind_UnBind_volumeId_dropped_counterexample :
    broker.Bind bindClient c1St0 "i1" "b1" [] = .ok (c1CredBound, c1St1) ∧
    broker.UnBind bindClient c1St1 "i1" "b1" "sid" "pid" = .ok ((), c1St2) ∧
    (c1St2.lookup "i1").map (fun inst => inst.credential.lookup "volumeId")
      = some none := by
  decide

/-- C1, amended: after a successful Bind followed by a successful UnBind
on the same instance id, the instance itself is still present in the
registry, but its credential set has been replaced by the empty set:
the attachment-scoped keys (attachment id, connection info) are removed
*and so is the volume id* (which Bind had preserved in the returned
credential set). -/
theorem Bind_then_UnBind_empties_credential
    (cl : broker.SdsClient) (st : broker.InstanceMap)
    (instanceID bindingID serviceID planID : String)
    (inst : broker.openSDSServiceInstance) (v : String)
    (atc : broker.VolumeAttachment) (params : Params)
    (hlook : st.lookup instanceID = some inst)
    (hvol : inst.credential.lookup "volumeId" = some (.cstr v))
    (hlv : params.lookup "lvPath" = none)
    (hatt : cl.createVolumeAttachment ⟨v, ⟨⟩, none⟩ = .ok atc)
    (hdel : cl.deleteVolumeAttachment atc.id = none) :
    let bigCred : broker.Credential :=
      ("connectionInfo", .cconn atc.connectionInfo) ::
        ("attachmentId", .cstr atc.id) :: inst.credential
    let bigSt : broker.InstanceMap := (instanceID, ⟨inst.name, bigCred⟩) :: st
    broker.Bind cl st instanceID bindingID params = .ok (bigCred, bigSt) ∧
    bigCred.lookup "volumeId" = some (.cstr v) ∧
    broker.UnBind cl bigSt instanceID bindingID serviceID planID
      = .ok ((), (instanceID, ⟨inst.name, []⟩) :: bigSt) ∧
    ((instanceID, (⟨inst.name, []⟩ : broker.openSDSServiceInstance)) ::
        bigSt).lookup instanceID = some ⟨inst.name, []⟩ := by
  intro bigCred bigSt
  refine ⟨?_, ?_, ?_, ?_⟩
  · simp [broker.Bind, hlook, hvol, hlv, hatt, bigCred, bigSt]
  · simp [bigCred, List.lookup, hvol]
  · simp [broker.UnBind, bigSt, bigCred, List.lookup, hdel]
  · simp [List.lookup]

/-- Witness for the amended C1. -/
theorem Bind_then_UnBind_empties_credential_witness :
    broker.Bind bindClient c1St0 "i1" "b1" []
      = .ok (c1CredBound, c1St1) ∧
    c1CredBound.lookup "volumeId" = some (.cstr "v1") ∧
    broker.UnBind bindClient c1St1 "i1" "b1" "sid" "pid"
      = .ok ((), ("i1", ⟨"i1", []⟩) :: c1St1) ∧
    (("i1", (⟨"i1", []⟩ : broker.openSDSServiceInstance)) :: c1St1).lookup "i1"
      = some ⟨"i1", []⟩ := by
  have h := Bind_then_UnBind_empties_credential bindClient c1St0 "i1" "b1"
    "sid" "pid" ⟨"i1", c1Cred0⟩ "v1" ⟨"a1", [("targetPortal", "10.0.0.1:3260")]⟩
    [] (by decide) (by decide) (by decide) rfl rfl
  simpa [c1CredBound, c1St1, c1St0, c1Cred0] using h

/-- C3, counterexample: two CreateServiceInstance calls whose stored
credential sets differ return the *same* response — the empty
`brokerapi.CreateServiceInstanceResponse{}` (modelled as `Unit`) — so
the operation does not return the credential set to the caller. -/
theorem CreateServiceInstance_response_carries_no_credentials :
    broker.CreateServiceInstance c3ClientA [] "i1" []
      = .ok ((), [("i1", ⟨"i1", [("volumeId", .cstr "volA"),
          ("image", .cstr "OPENSDS:nA:volA")]⟩)]) ∧
    broker.CreateServiceInstance c3ClientB [] "i1" []
      = .ok ((), [("i1", ⟨"i1", [("volumeId", .cstr "volB"),
          ("image", .cstr "OPENSDS:nB:volB")]⟩)]) ∧
    broker.respPart (broker.CreateServiceInstance c3ClientA [] "i1" [])
      = broker.respPart (broker.CreateServiceInstance c3ClientB [] "i1" []) ∧
    ([("volumeId", broker.CVal.cstr "volA"),
        ("image", broker.CVal.cstr "OPENSDS:nA:volA")]
      ≠ [("volumeId", broker.CVal.cstr "volB"),
        ("image", broker.CVal.cstr "OPENSDS:nB:volB")]) := by
  decide

/-- C3, amended: whenever parameter decoding completes and the external
client's volume creation succeeds, the registry stores a new Service
Instance under the given id holding the volume id and the synthesized
display image reference `OPENSDS:<name>:<id>`, and the operation returns
the empty provisioning response — the credential set is only stored, not
returned to the caller. -/
theorem CreateServiceInstance_stores_instance_returns_empty_response
    (cl : broker.SdsClient) (st : broker.InstanceMap)
    (instanceID : String) (params : Params)
    (s : broker.VolumeSpec) (vol : broker.Volume)
    (hdec : broker.decodeVolumeSpec params = .ok s)
    (hcv : cl.createVolume s = .ok vol) :
    broker.CreateServiceInstance cl st instanceID params
      = .ok ((),
          (instanceID,
            ⟨instanceID,
              [("volumeId", .cstr vol.id),
                ("image", .cstr ("OPENSDS:" ++ vol.name ++ ":" ++ vol.id))]⟩)
            :: st) := by
  simp [broker.CreateServiceInstance, hdec, hcv]

/-- Witness for the amended C3. -/
theorem CreateServiceInstance_stores_instance_returns_empty_response_witness :
    broker.CreateServiceInstance c3ClientA [] "i9"
        [("name", .pstr "nA"), ("capacity", .pint 7)]
      = .ok ((), [("i9", ⟨"i9", [("volumeId", .cstr "volA"),
          ("image", .cstr "OPENSDS:nA:volA")]⟩)]) := by
  have h := CreateServiceInstance_stores_instance_returns_empty_response
    c3ClientA [] "i9" [("name", .pstr "nA"), ("capacity", .pint 7)]
    ⟨"nA", "", 7, none⟩ ⟨"volA", "nA"⟩ rfl rfl
  simpa using h

/-- `getStrField` either succeeds or panics — it never returns an error
or exits. -/
theorem getStrField_cases (params : Params) (k : String) :
    (∃ o, broker.getStrField params k = .ok o) ∨
      broker.getStrField params k = .panics := by
  unfold broker.getStrField
  cases params.lookup k with
  | none => exact Or.inl ⟨none, rfl⟩
  | some v =>
    cases v with
    | pstr s => exact Or.inl ⟨some s, rfl⟩
    | pint n => exact Or.inr rfl
    | pbool b => exact Or.inr rfl

/-- `getIntField` either succeeds or panics. -/
theorem getIntField_cases (params : Params) (k : String) :
    (∃ o, broker.getIntField params k = .ok o) ∨
      broker.getIntField params k = .panics := by
  unfold broker.getIntField
  cases params.lookup k with
  | none => exact Or.inl ⟨none, rfl⟩
  | some v =>
    cases v with
    | pstr s => exact Or.inr rfl
    | pint n => exact Or.inl ⟨some n, rfl⟩
    | pbool b => exact Or.inr rfl

/-- C10: for every parameters map containing the key `lvPath`,
`CreateServiceInstance` panics — regardless of the client, registry state
and other parameters — because the value is written into the `Metadata`
map of a freshly allocated spec whose map was never initialised (a Go nil
map); likewise `Bind`, once it has reached the instance past its
volume-id check.  The pass-through of that metadata can never complete
normally. -/
theorem lvPath_parameter_always_panics
    (cl : broker.SdsClient) (st : broker.InstanceMap)
    (instanceID bindingID : String) (params : Params) (v : PVal)
    (inst : broker.openSDSServiceInstance) (vid : String)
    (hlv : params.lookup "lvPath" = some v)
    (hlook : st.lookup instanceID = some inst)
    (hvol : inst.credential.lookup "volumeId" = some (.cstr vid)) :
    broker.CreateServiceInstance cl st instanceID params = .panics ∧
    broker.Bind cl st instanceID bindingID params = .panics := by
  have hdec : broker.decodeVolumeSpec params = .panics := by
    rcases getStrField_cases params "name" with ⟨o1, h1⟩ | h1
    · rcases getStrField_cases params "description" with ⟨o2, h2⟩ | h2
      · rcases getIntField_cases params "capacity" with ⟨o3, h3⟩ | h3
        · cases v <;> simp [broker.decodeVolumeSpec, h1, h2, h3, hlv]
        · simp [broker.decodeVolumeSpec, h1, h2, h3]
      · simp [broker.decodeVolumeSpec, h1, h2]
    · simp [broker.decodeVolumeSpec, h1]
  constructor
  · simp [broker.CreateServiceInstance, hdec]
  · cases v <;> simp [broker.Bind, hlook, hvol, hlv]

/-- Witness for C10: a concrete `lvPath` parameter makes both operations
panic. -/
theorem lvPath_parameter_always_panics_witness :
    broker.CreateServiceInstance dummyClient c1St0 "i1"
        [("lvPath", .pstr "/dev/vg0/lv1")] = .panics ∧
    broker.Bind dummyClient c1St0 "i1" "b1"
        [("lvPath", .pstr "/dev/vg0/lv1")] = .panics :=
  lvPath_parameter_always_panics dummyClient c1St0 "i1" "b1"
    [("lvPath", .pstr "/dev/vg0/lv1")] (.pstr "/dev/vg0/lv1")
    ⟨"i1", c1Cred0⟩ "v1" (by decide) (by decide) (by decide)

